import Mathlib

set_option maxRecDepth 1000000
set_option maxHeartbeats 2000000

/- Verification of the magikarp terminal assistant against its natural-language
   specification.  Each definition below is a shallow embedding of a function of
   the Go sources (internal/terminal/input.go, internal/tools/exec/bash/bash.go,
   internal/tools/core/control_state/control_state.go,
   internal/providers/anthropic/client.go, internal/providers/gemini/client.go,
   internal/config/config.go).  Strings model Go strings; byte-index slicing in
   the source is modelled by character-index slicing (all inputs considered in
   the theorems are ASCII, where the two coincide). -/

namespace Magikarp

/-- Message roles, from the role constants in internal/providers/types.go
(RoleSystem, RoleUser, RoleAssistant, RoleTool). -/
inductive Role where
  | system
  | user
  | assistant
  | tool
deriving DecidableEq, Repr

/-- ChatMessage from internal/providers/types.go: a role and a content text. -/
structure ChatMessage where
  role : Role
  content : String
deriving DecidableEq, Repr

/-- ToolUse from internal/providers/types.go: a tool call produced by a provider.
The raw JSON input (json.RawMessage in Go) is modelled as its serialized text. -/
structure ToolUse where
  id : String
  name : String
  input : String
deriving DecidableEq, Repr

/-- ToolResult from internal/providers/types.go. -/
structure ToolResult where
  id : String
  content : String
  isError : Bool
deriving DecidableEq, Repr

/-- The body of a tool executor's result before the orchestrator overwrites the
id field (input.go line 851 does res.ID = call.ID). -/
structure ToolResultBody where
  content : String
  isError : Bool
deriving DecidableEq, Repr

/-- A registered tool as the orchestrator sees it (ToolDefinition in
internal/providers/types.go): a name and an executor.  The executor's
map-decoded JSON input is abstracted as the raw input text. -/
structure ToolDef where
  name : String
  fn : String → ToolResultBody

/-- The aiResponseMsg record from internal/terminal/input.go (lines 167-171):
the single per-turn output the orchestrator hands to the UI. -/
structure AiResponse where
  response : String
  isError : Bool
deriving DecidableEq, Repr

/-- Outgoing message list built by processMessageAsync
(internal/terminal/input.go lines 794-798): the system prompt followed by the
newly submitted user message, and nothing else. -/
def buildMessages (sysPrompt userMessage : String) : List ChatMessage :=
  [⟨Role.system, sysPrompt⟩, ⟨Role.user, userMessage⟩]

/-- Modelled from the spec: "Assemble the outgoing message list: prepend the
configured system prompt as a system message, followed by the conversation",
where the conversation is the whole history so far ending with the newly
appended user message.  Used only to compare the code's buildMessages against
the specified assembly. -/
def specOutgoingMessages (sysPrompt : String) (conversation : List ChatMessage)
    (userMessage : String) : List ChatMessage :=
  ⟨Role.system, sysPrompt⟩ :: (conversation ++ [⟨Role.user, userMessage⟩])

/-- Lowercasing as used by the Go sources (strings.ToLower); ASCII-faithful. -/
def strToLower (s : String) : String :=
  String.mk (s.data.map Char.toLower)

/-- Splitting a character list at every occurrence of a separator character;
the semantics of Go's strings.Split with a one-character separator: the result
is never empty, and an empty input yields one empty field. -/
def splitCharsOn (c : Char) : List Char → List (List Char)
  | [] => [[]]
  | x :: xs =>
    match splitCharsOn c xs with
    | [] => [[]]
    | h :: t => if x = c then [] :: h :: t else (x :: h) :: t

/-- Go's strings.Split(s, newline). -/
def splitLinesStr (s : String) : List String :=
  (splitCharsOn (Char.ofNat 10) s.data).map String.mk

/-- ASCII whitespace as trimmed by Go's strings.TrimSpace. -/
def isSpaceChar (c : Char) : Bool :=
  c = Char.ofNat 32 || c = Char.ofNat 9 || c = Char.ofNat 10 ||
  c = Char.ofNat 13 || c = Char.ofNat 11 || c = Char.ofNat 12

/-- Go's strings.TrimSpace: leading and trailing whitespace removed. -/
def trimSpaceStr (s : String) : String :=
  String.mk (((s.data.dropWhile isSpaceChar).reverse.dropWhile isSpaceChar).reverse)

/-- Substring test modelling Go's strings.Contains: the pattern is a prefix of
some tail of the text. -/
def containsSubstr (s pat : String) : Bool :=
  s.data.tails.any (fun t => pat.data.isPrefixOf t)

/-- Suffix test on strings, used to state "the emitted text ends with ...". -/
def endsWithStr (s suffix : String) : Bool :=
  suffix.data.isSuffixOf s.data

/-- Number of lines of a string, counting as Go's strings.Split(s, newline). -/
def countLines (s : String) : Nat :=
  (splitLinesStr s).length

/-- Tool lookup by name: tools.GetToolByName as used at input.go line 842.
The registry is the ordered list of registered tools. -/
def findTool (registry : List ToolDef) (name : String) : Option ToolDef :=
  registry.find? (fun d => d.name == name)

/-- One iteration of the tool-execution loop (input.go lines 841-852): a missing
tool yields a synthesized error result carrying the call's id; a found tool is
executed and its result is given the call's id. -/
def execCall (registry : List ToolDef) (call : ToolUse) : ToolResult :=
  match findTool registry call.name with
  | none => ⟨call.id, "tool not found", true⟩
  | some d =>
    let r := d.fn call.input
    ⟨call.id, r.content, r.isError⟩

/-- The results list accumulated by the loop at input.go lines 839-866, in call
order. -/
def buildResults (registry : List ToolDef) (calls : List ToolUse) : List ToolResult :=
  calls.map (execCall registry)

/-- Parameter preview for the Used-tools line (input.go lines 854-864): the
JSON-serialized input, truncated to 60 characters with an ellipsis.  The empty
string models an empty input object (len(inputMap) == 0 in the source). -/
def paramPreview (input : String) : String :=
  if input = "" then ""
  else "(" ++ (if input.length > 60 then input.take 57 ++ "..." else input) ++ ")"

/-- Entries of the Used-tools summary line (input.go line 865): one entry per
found tool, in call order; calls to missing tools are skipped by the source's
continue at line 845. -/
def usedEntries (registry : List ToolDef) (calls : List ToolUse) : List String :=
  (calls.filter (fun c => (findTool registry c.name).isSome)).map
    (fun c => c.name ++ paramPreview c.input)

/-- Display lines for a single tool result (input.go lines 880-895): the first
line of the trimmed content is prefixed with a result or error tag, and
continuation lines are indented by fourteen spaces. -/
def resultLines (r : ToolResult) : List String :=
  let tag := if r.isError then "(tool error) " else "(tool result) "
  match splitLinesStr (trimSpaceStr r.content) with
  | [] => []
  | l :: rest => (tag ++ l) :: rest.map (fun s => "              " ++ s)

/-- All display lines of a turn's tool results, in order (the toolOutputs slice
of input.go lines 879-896). -/
def toolOutputLines (results : List ToolResult) : List String :=
  (results.map resultLines).flatten

/-- Line-count truncation (input.go lines 899-903, maxToolOutputLines = 40):
more than 40 lines are cut to the first 40 plus a counting marker line. -/
def truncateToolOutputs (out : List String) : List String :=
  if 40 < out.length then
    out.take 40 ++ ["... (" ++ toString (out.length - 40) ++ " more lines truncated)"]
  else out

/-- The tool-output section of the consolidated assistant message (input.go
lines 898-907, maxToolOutputChars = 4000): lines are joined with newlines and
text longer than 4000 characters is cut to 4000 characters followed by the
output-truncated marker. -/
def toolOutputSection (results : List ToolResult) : String :=
  let combined := String.intercalate "\n" (truncateToolOutputs (toolOutputLines results))
  if 4000 < combined.length then combined.take 4000 ++ "\n... (output truncated)"
  else combined

/-- Concatenation of the assistant messages into the single response text
(input.go lines 916-924): non-empty contents joined with newlines. -/
def combineMessages (msgs : List ChatMessage) : String :=
  String.intercalate "\n" ((msgs.map ChatMessage.content).filter (fun c => c ≠ ""))

/-- Behaviour of the selected provider during one turn, as observed by
processMessageAsync: the outcome of Chat, and the outcome of SendToolResult as
a function of the augmented conversation and the results list.  An error value
models a transport-level error. -/
structure ProviderBehavior where
  chat : Except String (List ChatMessage × List ToolUse)
  sendToolResult : List ChatMessage → List ToolResult →
    Except String (List ChatMessage × List ToolUse)

/-- The turn body of processMessageAsync (input.go lines 794-926), from the
point where the outgoing message list is built: call Chat; on transport error
return the Chat-error response; with no tool calls return the combined
assistant text; with tool calls execute them, call SendToolResult on the
augmented conversation, and prepend the consolidated Used-tools message. -/
def processMessage (sysPrompt userMessage : String) (registry : List ToolDef)
    (toolsOutputVisible : Bool) (p : ProviderBehavior) : AiResponse :=
  let messages := buildMessages sysPrompt userMessage
  match p.chat with
  | Except.error err => ⟨"Chat error: " ++ err, true⟩
  | Except.ok (assistantMsgs, toolCalls) =>
    if toolCalls.isEmpty then ⟨combineMessages assistantMsgs, false⟩
    else
      let results := buildResults registry toolCalls
      let used := usedEntries registry toolCalls
      match p.sendToolResult (messages ++ assistantMsgs) results with
      | Except.error err => ⟨"Tool result error: " ++ err, true⟩
      | Except.ok (followUp, _) =>
        let summary := "[Used tools: " ++ String.intercalate ", " used ++ "]"
        let content :=
          if toolsOutputVisible then summary ++ "\n" ++ toolOutputSection results
          else summary
        ⟨combineMessages (⟨Role.assistant, content⟩ :: followUp), false⟩

/-- Rendering of an aiResponseMsg by the UI update loop (input.go lines
203-209): error responses are displayed with an Error prefix. -/
def displayResponse (r : AiResponse) : String :=
  if r.isError then "Error: " ++ r.response else r.response

/- ------------------------------------------------------------------ -/
/- The bash tool (internal/tools/exec/bash/bash.go).                   -/
/- ------------------------------------------------------------------ -/

/-- The dangerousCommands denylist of bash.go lines 41-61, in source order. -/
def dangerousCommands : List String :=
  ["rm -rf", "rm -r", "rmdir", "mkfs", "dd", "shred", "truncate",
   "shutdown", "reboot", "halt", "poweroff",
   "iptables", "ip6tables", "ufw",
   "passwd", "useradd", "userdel", "groupadd", "groupdel",
   "sudo", "su", "doas",
   "> /dev/null", ">/dev/null", "> /dev/", ">/dev/",
   "> /proc/", ">/proc/", "> /sys/", ">/sys/",
   "|", "||", "&&", ";", "$("] ++ [String.mk [Char.ofNat 96]]

/-- The effective timeout chosen by bash.go lines 81-85: the default is 30
seconds, and a caller value is used only when it is strictly between 0 and
300; any other value (absent, zero, negative, or at least 300) falls back to
30 seconds. -/
def effectiveTimeout (t : Int) : Int :=
  if 0 < t ∧ t < 300 then t else 30

/-- Outcome of the bash tool's run function up to the point where the shell
would be spawned: either it returns a ToolResultBody without invoking the
shell, or it executes the script with the given working directory and
timeout. -/
inductive BashOutcome where
  | result (r : ToolResultBody)
  | execute (script workDir : String) (timeoutSecs : Int)
deriving DecidableEq, Repr

/-- Decision logic of bash.go run (lines 76-104): reject blank scripts, pick
the effective timeout, reject any script whose lowercased text contains a
denylisted substring, and only otherwise hand the script to the shell. -/
def bashRun (script : String) (timeoutParam : Int) (workDir : String) : BashOutcome :=
  if trimSpaceStr script = "" then
    BashOutcome.result ⟨"script parameter cannot be empty", true⟩
  else
    let timeout := effectiveTimeout timeoutParam
    let commandLine := strToLower script
    match dangerousCommands.find? (fun d => containsSubstr commandLine d) with
    | some d =>
      BashOutcome.result
        ⟨"Command rejected for security reasons: contains " ++
          String.mk [Char.ofNat 39] ++ d ++ String.mk [Char.ofNat 39], true⟩
    | none => BashOutcome.execute script workDir timeout

/- ------------------------------------------------------------------ -/
/- The control_state tool (internal/tools/core/control_state).         -/
/- ------------------------------------------------------------------ -/

/-- The enable test of control_state.go lines 50-51 and 70-71: the lowercased
value must be exactly one of on, enable, true, or 1; every other value,
including the empty string that Go produces for an absent value, counts as
disable. -/
def parseEnable (value : String) : Bool :=
  let desired := strToLower value
  desired == "on" || desired == "enable" || desired == "true" || desired == "1"

/-- The state transition performed by the toggle actions of control_state.go
(lines 49-77): when the current flag already equals the requested state the
tool reports "already" and leaves it; otherwise it flips (toggle_tools) or
sets (toggle_speech) the flag, in both cases reaching the requested state. -/
def toggleFlagAction (current : Bool) (value : String) : Bool :=
  let enable := parseEnable value
  if current == enable then current else !current

/- ------------------------------------------------------------------ -/
/- Anthropic adapter (internal/providers/anthropic/client.go).         -/
/- ------------------------------------------------------------------ -/

/-- Roles that can appear in the Anthropic outgoing message array: the SDK
constructors used by Chat are NewUserMessage and NewAssistantMessage only. -/
inductive AnthRole where
  | user
  | assistant
deriving DecidableEq, Repr

/-- An entry of the Anthropic outgoing message array. -/
structure AnthMessage where
  role : AnthRole
  content : String
deriving DecidableEq, Repr

/-- The message-conversion loop of AnthropicClient.Chat (client.go lines
78-92) together with the systemPrompt variable it threads: system messages are
skipped without recording their content (the branch at lines 82-84 only
continues), user and tool messages become user messages, assistant messages
stay assistant messages. -/
def anthropicConvert (messages : List ChatMessage) : List AnthMessage × String :=
  messages.foldl
    (fun acc msg =>
      match msg.role with
      | Role.system => acc
      | Role.user => (acc.1 ++ [⟨AnthRole.user, msg.content⟩], acc.2)
      | Role.assistant => (acc.1 ++ [⟨AnthRole.assistant, msg.content⟩], acc.2)
      | Role.tool => (acc.1 ++ [⟨AnthRole.user, msg.content⟩], acc.2))
    ([], "")

/-- The system-parameter preparation of Chat (client.go lines 124-127): a
single text block when the captured prompt is non-empty, nothing otherwise. -/
def anthropicSystemBlocks (sysPrompt : String) : List String :=
  if sysPrompt = "" then [] else [sysPrompt]

/-- The outgoing Anthropic request assembled by Chat: the converted message
array and the out-of-band System blocks. -/
structure AnthropicRequest where
  messages : List AnthMessage
  systemBlocks : List String
deriving DecidableEq, Repr

/-- The request AnthropicClient.Chat sends (client.go lines 130-136), as a
function of the incoming conversation. -/
def anthropicChatRequest (messages : List ChatMessage) : AnthropicRequest :=
  let conv := anthropicConvert messages
  ⟨conv.1, anthropicSystemBlocks conv.2⟩

/-- The message-conversion loop of AnthropicClient.StreamChat (client.go lines
173-183), which does capture the system prompt (line 176) and drops tool
messages. -/
def anthropicStreamConvert (messages : List ChatMessage) : List AnthMessage × String :=
  messages.foldl
    (fun acc msg =>
      match msg.role with
      | Role.system => (acc.1, msg.content)
      | Role.user => (acc.1 ++ [⟨AnthRole.user, msg.content⟩], acc.2)
      | Role.assistant => (acc.1 ++ [⟨AnthRole.assistant, msg.content⟩], acc.2)
      | Role.tool => acc)
    ([], "")

/- ------------------------------------------------------------------ -/
/- Gemini adapter (internal/providers/gemini/client.go).               -/
/- ------------------------------------------------------------------ -/

/-- An entry of the Gemini content list: the wire role (user or model) and the
text part. -/
structure GeminiContent where
  role : String
  content : String
deriving DecidableEq, Repr

/-- The geminiMessages list built by GeminiClient.Chat (client.go lines
63-82): system messages are filtered out (their content goes to the system
instruction instead), assistant messages get wire role model, and user and
tool messages get wire role user. -/
def geminiMessages : List ChatMessage → List GeminiContent
  | [] => []
  | m :: rest =>
    if m.role = Role.system then geminiMessages rest
    else ⟨if m.role = Role.assistant then "model" else "user", m.content⟩ ::
      geminiMessages rest

/-- The systemPrompt variable of GeminiClient.Chat (lines 64-68): overwritten
by every system message, so the last system message wins; empty when there is
none. -/
def geminiSystemPrompt (messages : List ChatMessage) : String :=
  messages.foldl (fun acc m => if m.role = Role.system then m.content else acc) ""

/-- The message Chat sends (client.go line 96): geminiMessages indexed at
length minus one.  The source indexes unconditionally and panics on an empty
list; the out-of-bounds access is modelled as none. -/
def geminiChatSend (messages : List ChatMessage) : Option GeminiContent :=
  (geminiMessages messages).getLast?

/- ------------------------------------------------------------------ -/
/- Configuration (internal/config/config.go).                          -/
/- ------------------------------------------------------------------ -/

/-- ProviderConfig from config.go: the fields GetEffectiveTemperature reads.
Go's float64 temperature is modelled as a rational number (no configuration in
scope uses non-finite values). -/
structure ProviderConfig where
  key : String
  temperature : Rat
  models : List String
deriving DecidableEq, Repr

/-- The Config fields read by GetEffectiveTemperature.  The Go provider map is
modelled as an association list with first-match lookup. -/
structure Config where
  defaultTemperature : Rat
  providers : List (String × ProviderConfig)
deriving DecidableEq, Repr

/-- Map lookup c.Providers[providerName]. -/
def getProvider (c : Config) (providerName : String) : Option ProviderConfig :=
  (c.providers.find? (fun e => e.1 == providerName)).map (fun e => e.2)

/-- Config.GetEffectiveTemperature (config.go lines 148-153): the provider's
temperature when the provider exists and its temperature is non-zero,
otherwise the global default. -/
def getEffectiveTemperature (c : Config) (providerName : String) : Rat :=
  match getProvider c providerName with
  | some p => if p.temperature ≠ 0 then p.temperature else c.defaultTemperature
  | none => c.defaultTemperature

/- ------------------------------------------------------------------ -/
/- Shared lemmas.                                                      -/
/- ------------------------------------------------------------------ -/

/-- Appending a string always produces a string that ends with it. -/
lemma endsWithStr_append (a b : String) : endsWithStr (a ++ b) b = true := by
  simp [endsWithStr, String.data_append, List.isSuffixOf]

/-- The loop body always stamps the call's id onto the produced result. -/
lemma execCall_id (registry : List ToolDef) (call : ToolUse) :
    (execCall registry call).id = call.id := by
  unfold execCall
  split <;> rfl

/-- Reduction of the loop body when the called tool is not registered. -/
lemma execCall_of_missing {registry : List ToolDef} {call : ToolUse}
    (h : findTool registry call.name = none) :
    execCall registry call = ⟨call.id, "tool not found", true⟩ := by
  unfold execCall
  rw [h]

/-- Reduction of the loop body when the called tool is registered. -/
lemma execCall_of_found {registry : List ToolDef} {call : ToolUse} {d : ToolDef}
    (h : findTool registry call.name = some d) :
    execCall registry call =
      ⟨call.id, (d.fn call.input).content, (d.fn call.input).isError⟩ := by
  unfold execCall
  rw [h]

/- ------------------------------------------------------------------ -/
/- C1.                                                                 -/
/- ------------------------------------------------------------------ -/

/-- C1, counterexample.  The claim says the message list sent to Chat is the
system prompt followed by the entire conversation so far; at a second turn
whose conversation already holds the first turn's user message and assistant
reply, the list the code builds differs from that assembly, because
processMessageAsync rebuilds the list from the system prompt and the new user
message alone. -/
theorem outgoing_messages_drop_history :
    buildMessages "sys" "again" ≠
      specOutgoingMessages "sys"
        [⟨Role.user, "hello"⟩, ⟨Role.assistant, "hi"⟩] "again" := by
  decide

/-- C1, amended.  The message list processMessageAsync sends to Chat equals
the specified assembly applied to an empty conversation: the configured system
prompt as a system message followed only by the newly appended user message,
which is also its last element.  Messages of earlier turns never appear. -/
theorem outgoing_messages_fresh_each_turn (sysPrompt userMessage : String) :
    buildMessages sysPrompt userMessage =
      specOutgoingMessages sysPrompt [] userMessage ∧
    (buildMessages sysPrompt userMessage).getLast? =
      some ⟨Role.user, userMessage⟩ ∧
    ∀ m ∈ buildMessages sysPrompt userMessage, m.role ≠ Role.assistant := by
  refine ⟨rfl, rfl, ?_⟩
  intro m hm
  fin_cases hm <;> simp

/- ------------------------------------------------------------------ -/
/- C2.                                                                 -/
/- ------------------------------------------------------------------ -/

/-- C2.  When the provider call fails with a transport-level error — whether
the initial Chat or the follow-up SendToolResult — the turn's output rendered
by the UI is a string prefixed with "Error: " flagged as an error, and no
assistant message is appended to the conversation: the message list of every
turn contains no assistant message at all (each turn's list holds only the
system prompt and that turn's user message). -/
theorem transport_error_turn_output (sysPrompt userMessage err : String)
    (registry : List ToolDef) (vis : Bool) (p : ProviderBehavior) :
    (p.chat = Except.error err →
      processMessage sysPrompt userMessage registry vis p =
        ⟨"Chat error: " ++ err, true⟩ ∧
      displayResponse (processMessage sysPrompt userMessage registry vis p) =
        "Error: " ++ ("Chat error: " ++ err)) ∧
    (∀ assistantMsgs toolCalls,
      p.chat = Except.ok (assistantMsgs, toolCalls) →
      toolCalls ≠ [] →
      p.sendToolResult (buildMessages sysPrompt userMessage ++ assistantMsgs)
          (buildResults registry toolCalls) = Except.error err →
      processMessage sysPrompt userMessage registry vis p =
        ⟨"Tool result error: " ++ err, true⟩ ∧
      displayResponse (processMessage sysPrompt userMessage registry vis p) =
        "Error: " ++ ("Tool result error: " ++ err)) ∧
    (∀ u, ∀ m ∈ buildMessages sysPrompt u, m.role ≠ Role.assistant) := by
  refine ⟨?_, ?_, ?_⟩
  · intro h
    simp [processMessage, h, displayResponse]
  · intro assistantMsgs toolCalls hchat hne hsend
    have hempty : toolCalls.isEmpty = false := by
      cases toolCalls with
      | nil => exact absurd rfl hne
      | cons a l => rfl
    simp [processMessage, hchat, hempty, hsend, displayResponse]
  · intro u m hm
    exact (outgoing_messages_fresh_each_turn sysPrompt u).2.2 m hm

/-- C2, witness: a provider whose Chat fails with the message "boom" yields
the rendered turn output "Error: Chat error: boom". -/
theorem transport_error_turn_output_witness :
    displayResponse
      (processMessage "s" "hi" []
        false ⟨Except.error "boom", fun _ _ => Except.error "boom"⟩) =
      "Error: " ++ ("Chat error: " ++ "boom") :=
  ((transport_error_turn_output "s" "hi" "boom" [] false
      ⟨Except.error "boom", fun _ _ => Except.error "boom"⟩).1 rfl).2

/- ------------------------------------------------------------------ -/
/- C3.                                                                 -/
/- ------------------------------------------------------------------ -/

/-- C3.  The tool-execution loop produces exactly one result per tool call,
in the same order: the results list has the same length as the calls list, the
result at every position carries the id of the call at that position, a call
to an unregistered tool yields the synthesized tool-not-found error result
with the call's id, and a call to a registered tool yields that tool's
executor output with the call's id. -/
theorem tool_results_match_calls (registry : List ToolDef) (calls : List ToolUse) :
    (buildResults registry calls).length = calls.length ∧
    (∀ i : Nat, (buildResults registry calls)[i]?.map ToolResult.id =
      calls[i]?.map ToolUse.id) ∧
    (∀ i : Nat, ∀ call : ToolUse, calls[i]? = some call →
      findTool registry call.name = none →
      (buildResults registry calls)[i]? = some ⟨call.id, "tool not found", true⟩) ∧
    (∀ i : Nat, ∀ call : ToolUse, ∀ d : ToolDef, calls[i]? = some call →
      findTool registry call.name = some d →
      (buildResults registry calls)[i]? =
        some ⟨call.id, (d.fn call.input).content, (d.fn call.input).isError⟩) := by
  refine ⟨by simp [buildResults], ?_, ?_, ?_⟩
  · intro i
    simp only [buildResults, List.getElem?_map]
    cases calls[i]? with
    | none => rfl
    | some call => simp [execCall_id]
  · intro i call hcall hmiss
    simp [buildResults, List.getElem?_map, hcall, execCall_of_missing hmiss]
  · intro i call d hcall hfound
    simp [buildResults, List.getElem?_map, hcall, execCall_of_found hfound]

/-- C3, witness: a single call to the unregistered tool name "bash" against an
empty registry yields the synthesized error result carrying the call's id. -/
theorem tool_results_match_calls_witness :
    (buildResults [] [⟨"id1", "bash", "x"⟩])[0]? =
      some ⟨"id1", "tool not found", true⟩ :=
  (tool_results_match_calls [] [⟨"id1", "bash", "x"⟩]).2.2.1 0
    ⟨"id1", "bash", "x"⟩ rfl rfl

/- ------------------------------------------------------------------ -/
/- C4.                                                                 -/
/- ------------------------------------------------------------------ -/

/-- Observation on a bash outcome: the run returned a ToolResult flagged as an
error without reaching the shell-execution branch. -/
def bashRejectedWithError : BashOutcome → Bool
  | BashOutcome.result r => r.isError
  | BashOutcome.execute _ _ _ => false

/-- C4.  Every script whose lowercased text contains a denylisted substring is
rejected by the bash tool: run returns an error-flagged ToolResult and never
reaches the branch that spawns the shell. -/
theorem bash_denylist_blocks_execution (script : String) (t : Int) (wd d : String)
    (hd : d ∈ dangerousCommands)
    (hc : containsSubstr (strToLower script) d = true) :
    bashRejectedWithError (bashRun script t wd) = true := by
  unfold bashRun
  by_cases h : trimSpaceStr script = ""
  · rw [if_pos h]; rfl
  · rw [if_neg h]
    have hsome : (dangerousCommands.find?
        (fun x => containsSubstr (strToLower script) x)).isSome := by
      rw [List.find?_isSome]; exact ⟨d, hd, hc⟩
    obtain ⟨d', hd'⟩ := Option.isSome_iff_exists.mp hsome
    simp only [hd']
    rfl

/-- C4, witness: the script "sudo reboot" (which contains the denylisted
substrings "sudo", "su" and "reboot") is rejected without execution. -/
theorem bash_denylist_blocks_execution_witness :
    bashRejectedWithError (bashRun "sudo reboot" 0 "") = true :=
  bash_denylist_blocks_execution "sudo reboot" 0 "" "sudo" (by decide) (by decide)

/- ------------------------------------------------------------------ -/
/- C5.                                                                 -/
/- ------------------------------------------------------------------ -/

/-- C5.  The bash tool's effective timeout is 30 seconds when the caller
supplies no timeout (Go's zero value), never exceeds 300 seconds for any
caller-supplied value, and is exactly the value run hands to the shell
whenever the script is executed. -/
theorem bash_timeout_default_and_cap (t : Int) :
    effectiveTimeout 0 = 30 ∧ effectiveTimeout t ≤ 300 ∧
    (∀ s w tm, bashRun s t w = BashOutcome.execute s w tm →
      tm = effectiveTimeout t) := by
  refine ⟨rfl, ?_, ?_⟩
  · unfold effectiveTimeout
    split <;> omega
  · intro s w tm h
    unfold bashRun at h
    split at h
    · exact absurd h (by simp)
    · simp only [] at h
      split at h
      · exact absurd h (by simp)
      · rw [BashOutcome.execute.injEq] at h
        exact h.2.2.symm

/-- C5, witness: a caller-supplied timeout of 400 seconds effectively becomes
30 seconds, below the 300-second cap, and a clean script with that timeout is
executed with 30 seconds. -/
theorem bash_timeout_default_and_cap_witness :
    effectiveTimeout 0 = 30 ∧ effectiveTimeout 400 ≤ 300 ∧
    (30 : Int) = effectiveTimeout 400 :=
  ⟨(bash_timeout_default_and_cap 0).1,
   (bash_timeout_default_and_cap 400).2.1,
   (bash_timeout_default_and_cap 400).2.2 "ls" "" 30 (by decide)⟩

/- ------------------------------------------------------------------ -/
/- C6.                                                                 -/
/- ------------------------------------------------------------------ -/

/-- C6, counterexample.  The claim says absence of a value toggles the flag:
with the flag currently off and no value supplied (Go decodes the absent field
to the empty string), the toggle actions leave the flag off instead of
toggling it on. -/
theorem control_state_absence_counterexample :
    ¬ (toggleFlagAction false "" = !false) := by
  decide

/-- C6, amended.  A value whose lowercase form is one of on, enable, true, or
1 sets the flag to true; every other value — including off, disable, false, 0,
and an absent value (the empty string) — sets the flag to false.  Absence does
not toggle: it behaves as an explicit off. -/
theorem control_state_value_semantics (current : Bool) (value : String) :
    toggleFlagAction current value = parseEnable value ∧
    parseEnable "on" = true ∧ parseEnable "enable" = true ∧
    parseEnable "true" = true ∧ parseEnable "1" = true ∧
    parseEnable "off" = false ∧ parseEnable "disable" = false ∧
    parseEnable "false" = false ∧ parseEnable "0" = false ∧
    parseEnable "" = false := by
  refine ⟨?_, by decide, by decide, by decide, by decide, by decide,
    by decide, by decide, by decide, by decide⟩
  cases h : parseEnable value <;> cases current <;>
    simp [toggleFlagAction, h]

/- ------------------------------------------------------------------ -/
/- C7.                                                                 -/
/- ------------------------------------------------------------------ -/

/-- C7, evaluation at the failing input.  For the conversation system-then-user
the Anthropic Chat request has no system-role entry in its message array (as
claimed) but its out-of-band System parameter is empty: the system content is
dropped, because the conversion loop skips system messages without capturing
them.  The same adapter's StreamChat conversion does capture the prompt, and
the Gemini adapter carries it (its SystemInstruction text) while keeping the
wire message roles to user and model — confirming the capture in Chat was
intended. -/
theorem anthropic_chat_drops_system_prompt :
    anthropicChatRequest
        [⟨Role.system, "You are helpful."⟩, ⟨Role.user, "hello"⟩] =
      ⟨[⟨AnthRole.user, "hello"⟩], []⟩ ∧
    anthropicStreamConvert
        [⟨Role.system, "You are helpful."⟩, ⟨Role.user, "hello"⟩] =
      ([⟨AnthRole.user, "hello"⟩], "You are helpful.") ∧
    geminiSystemPrompt
        [⟨Role.system, "You are helpful."⟩, ⟨Role.user, "hello"⟩] =
      "You are helpful." ∧
    (geminiMessages
        [⟨Role.system, "You are helpful."⟩, ⟨Role.user, "hello"⟩]).all
      (fun gm => gm.role != "system") = true := by
  decide

/- ------------------------------------------------------------------ -/
/- C8.                                                                 -/
/- ------------------------------------------------------------------ -/

/-- A tool result whose content spans 41 one-character lines; its display form
exceeds the 40-line limit while staying far below 4000 characters. -/
def fortyOneLineResults : List ToolResult :=
  [⟨"1", String.intercalate "\n" (List.replicate 41 "x"), false⟩]

/-- C8, counterexample.  A tool output of 41 short lines exceeds the 40-line
limit, yet the emitted section has 41 lines (40 kept plus a marker line) and
ends with the counting marker line, not with the output-truncated marker the
claim requires for any exceeded limit. -/
theorem tool_output_marker_counterexample :
    (toolOutputLines fortyOneLineResults).length = 41 ∧
    countLines (toolOutputSection fortyOneLineResults) = 41 ∧
    endsWithStr (toolOutputSection fortyOneLineResults)
      "... (output truncated)" = false := by
  decide

/-- C8, amended.  The section keeps at most the first 40 output lines: beyond
40 lines it is cut to 40 plus an appended marker line counting the dropped
lines (so at most 41 lines leave the line-truncation step); after joining, a
text longer than 4000 characters is cut to its first 4000 characters with the
output-truncated marker appended after a newline — so the emitted text ends
with the output-truncated marker exactly when the character limit is
exceeded. -/
theorem tool_output_truncation_behavior (results : List ToolResult) :
    (truncateToolOutputs (toolOutputLines results)).length ≤ 41 ∧
    ((toolOutputLines results).length ≤ 40 →
      truncateToolOutputs (toolOutputLines results) = toolOutputLines results) ∧
    (40 < (toolOutputLines results).length →
      (truncateToolOutputs (toolOutputLines results)).getLast? =
        some ("... (" ++ toString ((toolOutputLines results).length - 40) ++
          " more lines truncated)")) ∧
    ((String.intercalate "\n"
        (truncateToolOutputs (toolOutputLines results))).length ≤ 4000 →
      toolOutputSection results =
        String.intercalate "\n" (truncateToolOutputs (toolOutputLines results))) ∧
    (4000 < (String.intercalate "\n"
        (truncateToolOutputs (toolOutputLines results))).length →
      toolOutputSection results =
        (String.intercalate "\n"
          (truncateToolOutputs (toolOutputLines results))).take 4000 ++
          "\n... (output truncated)" ∧
      endsWithStr (toolOutputSection results) "... (output truncated)" = true) := by
  refine ⟨?_, ?_, ?_, ?_, ?_⟩
  · unfold truncateToolOutputs
    split
    · simp
    · next hle =>
      have : (toolOutputLines results).length ≤ 40 := by omega
      omega
  · intro h
    unfold truncateToolOutputs
    rw [if_neg (by omega)]
  · intro h
    unfold truncateToolOutputs
    rw [if_pos h]
    exact List.getLast?_concat _
  · intro h
    simp only [toolOutputSection]
    rw [if_neg (by omega)]
  · intro h
    have heq : toolOutputSection results =
        (String.intercalate "\n"
          (truncateToolOutputs (toolOutputLines results))).take 4000 ++
          "\n... (output truncated)" := by
      simp only [toolOutputSection]
      rw [if_pos h]
    refine ⟨heq, ?_⟩
    rw [heq, show ("\n... (output truncated)" : String) =
      "\n" ++ "... (output truncated)" from by decide,
      ← String.append_assoc]
    exact endsWithStr_append _ _

/-- A one-line tool result whose display form respects both limits. -/
def shortToolResults : List ToolResult :=
  [⟨"1", "ok", false⟩]

/-- C8, witness: the short output passes through line truncation unchanged and
its section is the joined lines without any truncation marker, while the
41-line output's section ends with the line-counting marker. -/
theorem tool_output_truncation_behavior_witness :
    truncateToolOutputs (toolOutputLines shortToolResults) =
      toolOutputLines shortToolResults ∧
    toolOutputSection shortToolResults =
      String.intercalate "\n"
        (truncateToolOutputs (toolOutputLines shortToolResults)) ∧
    (truncateToolOutputs (toolOutputLines fortyOneLineResults)).getLast? =
      some "... (1 more lines truncated)" :=
  ⟨(tool_output_truncation_behavior shortToolResults).2.1 (by decide),
   (tool_output_truncation_behavior shortToolResults).2.2.2.1 (by decide),
   (tool_output_truncation_behavior fortyOneLineResults).2.2.1 (by decide)⟩

/- ------------------------------------------------------------------ -/
/- C9.                                                                 -/
/- ------------------------------------------------------------------ -/

/-- The Gemini converted message list is empty exactly when every incoming
message has the system role. -/
lemma geminiMessages_eq_nil_iff (messages : List ChatMessage) :
    geminiMessages messages = [] ↔ ∀ m ∈ messages, m.role = Role.system := by
  induction messages with
  | nil => simp [geminiMessages]
  | cons m rest ih =>
    by_cases h : m.role = Role.system
    · simp [geminiMessages, h, ih]
    · simp [geminiMessages, h]

/-- C9.  GeminiClient.Chat's unconditional index of the last converted message
is out of bounds (none, a runtime panic in the source) exactly when the
incoming message list consists solely of system messages — including the empty
list; it is in bounds for every list containing at least one non-system
message. -/
theorem gemini_chat_requires_nonsystem_message (messages : List ChatMessage) :
    geminiChatSend messages = none ↔ ∀ m ∈ messages, m.role = Role.system := by
  rw [geminiChatSend, List.getLast?_eq_none_iff]
  exact geminiMessages_eq_nil_iff messages

/- ------------------------------------------------------------------ -/
/- C10.                                                                -/
/- ------------------------------------------------------------------ -/

/-- C10.  GetEffectiveTemperature returns the provider's configured
temperature exactly when the provider exists and that temperature is non-zero;
a provider temperature of zero, or an unknown provider, falls back to the
global default — so an explicitly configured zero is indistinguishable from an
unset temperature. -/
theorem effective_temperature_semantics (c : Config) (name : String) :
    (∀ p : ProviderConfig, getProvider c name = some p → p.temperature ≠ 0 →
      getEffectiveTemperature c name = p.temperature) ∧
    (∀ p : ProviderConfig, getProvider c name = some p → p.temperature = 0 →
      getEffectiveTemperature c name = c.defaultTemperature) ∧
    (getProvider c name = none →
      getEffectiveTemperature c name = c.defaultTemperature) := by
  refine ⟨?_, ?_, ?_⟩
  · intro p hp hne
    simp [getEffectiveTemperature, hp, hne]
  · intro p hp h0
    simp [getEffectiveTemperature, hp, h0]
  · intro h
    simp [getEffectiveTemperature, h]

/-- C10, witness: a provider configured with temperature 0 gets the global
default temperature 7/10. -/
theorem effective_temperature_semantics_witness :
    getEffectiveTemperature ⟨7/10, [("openai", ⟨"k", 0, ["m1"]⟩)]⟩ "openai" =
      (7/10 : Rat) :=
  (effective_temperature_semantics ⟨7/10, [("openai", ⟨"k", 0, ["m1"]⟩)]⟩
    "openai").2.1 ⟨"k", 0, ["m1"]⟩ rfl rfl

end Magikarp
